import Mathlib

/-!
Shallow embedding of `poem-wasmhandler/src/endpoint.rs` (the adapter that runs
a sandboxed wasm module per HTTP request and assembles the response from the
messages the module sends over three channels: envelope, body, upgrade tunnel).

Channels are modelled by the list of messages sent on them before closure:
an empty list is a channel closed without a message.  Machine-level byte
buffers are `List Nat`.  External collaborators (wasmtime, poem, the crate's
`funcs`/`state` modules that are not part of the analysed source) are modelled
from their documented behaviour and from the spec, as noted on each definition.
-/

namespace PoemWasmHandler

/-- A byte buffer (one channel message / one chunk of body data). -/
abbrev Bytes := List Nat

/-- An HTTP header set, as assigned wholesale by `*resp.headers_mut() = headers`. -/
abbrev Headers := List (String × String)

/-- Modelled from the spec: `poem_wasm::ffi` body-kind tag for an empty body.
The tags form a closed enumeration of three distinct integer constants. -/
def RESPONSE_BODY_EMPTY : Nat := 0

/-- Modelled from the spec: `poem_wasm::ffi` body-kind tag for a single-buffer body. -/
def RESPONSE_BODY_BYTES : Nat := 1

/-- Modelled from the spec: `poem_wasm::ffi` body-kind tag for a streamed body. -/
def RESPONSE_BODY_STREAM : Nat := 2

/-- The envelope message `(status, headers, body_type)` received on the
response channel in `WasmEndpoint::call`. -/
structure Envelope where
  status : Nat
  headers : Headers
  bodyType : Nat
deriving DecidableEq, Repr

/-- The body representation stored in the assembled `Response`:
`set_body(Body::empty())` / `set_body(())`, `set_body(data)`, or
`set_body(Body::from_bytes_stream(...))` over the remaining body-channel
messages. -/
inductive BodyRepr where
  | empty : BodyRepr
  | bytes (data : Bytes) : BodyRepr
  | stream (chunks : List Bytes) : BodyRepr
deriving DecidableEq, Repr

/-- The assembled `poem::Response`: status, headers and body. -/
structure Response where
  status : Nat
  headers : Headers
  body : BodyRepr
deriving DecidableEq, Repr

/-- The byte sequence a reader of the response body observes in total:
nothing for an empty body, the buffer for a bytes body, the concatenation of
the chunks in order for a streamed body. -/
def Response.bodyBytes : Response → List Nat
  | ⟨_, _, .empty⟩ => []
  | ⟨_, _, .bytes data⟩ => data
  | ⟨_, _, .stream chunks⟩ => chunks.flatten

/-- Modelled from poem/tokio: the real upgraded transport obtained when
upgrade negotiation succeeds.  `readBytes` is the byte sequence arriving on
its read half; `failAfter` is `some k` when the `(k+1)`-th write on its write
half fails (with `none`, every write succeeds). -/
structure Transport where
  readBytes : List Nat
  failAfter : Option Nat
deriving DecidableEq, Repr

/-- Modelled from poem: the eventual value of the `OnUpgrade` future returned
by `req.take_upgrade()` — either a negotiated upgraded transport or a
negotiation failure. -/
inductive OnUpgrade where
  | negotiated (t : Transport) : OnUpgrade
  | failed : OnUpgrade
deriving DecidableEq, Repr

/-- The inbound `poem::Request`, restricted to the parts `call` consumes:
whether it still carries a connection-upgrade intent (the `OnUpgrade` future). -/
structure Request where
  onUpgrade : Option OnUpgrade
deriving DecidableEq, Repr

/-- Modelled from poem: `Request::take_upgrade().ok()` — yields the upgrade
future when the request carries upgrade intent, and detaches it from the
request (a later take on the returned request would yield `none`). -/
def Request.take_upgrade (r : Request) : Option OnUpgrade × Request :=
  (r.onUpgrade, { r with onUpgrade := none })

/-- Modelled from the spec: the Per-Request Context (`WasmEndpointState::new`)
handed to the sandbox instance — the consumed request, the sandbox half of the
virtual duplex pipe plus the tunnel-channel sender when allocated, and the
user-state clone.  Channel senders for envelope and body are elided: their
traffic appears as the channel-content lists given to `call`. -/
structure WasmEndpointState (σ : Type) where
  request : Request
  upgraded : Option Unit
  user_state : σ
deriving DecidableEq, Repr

/-- Modelled from wasmtime: the execution engine created by
`Engine::new(&Config::new().async_support(true))`. -/
structure Engine where
  asyncSupport : Bool
deriving DecidableEq, Repr

/-- Modelled from wasmtime: `Engine::new(&Config::new().async_support(true)).unwrap()`. -/
def Engine.new : Engine := ⟨true⟩

/-- Modelled from wasmtime: a `Linker`, holding the set of host definitions as
`(namespace, name, function token)` triples in definition order.  Function
bodies are opaque; distinct tokens distinguish distinct registrations. -/
structure Linker where
  defs : List (String × String × Nat)
deriving DecidableEq, Repr

/-- `Linker::new(&engine)`: an empty linker. -/
def Linker.new : Linker := ⟨[]⟩

/-- Whether the linker already defines `(ns, name)`. -/
def Linker.definesName (l : Linker) (ns name : String) : Bool :=
  l.defs.any fun d => d.1 = ns ∧ d.2.1 = name

/-- Modelled from wasmtime: `Linker::func_wrap` with the default
`allow_shadowing = false` — defining a `(namespace, name)` pair already
present fails with a duplicate-definition error (`none`); otherwise the
definition is appended. -/
def Linker.func_wrap (l : Linker) (ns name : String) (f : Nat) : Option Linker :=
  if l.definesName ns name then none else some ⟨l.defs ++ [(ns, name, f)]⟩

/-- The raw image bytes handed to `WasmEndpointBuilder::new`, abstracted to
what the pipeline observes of them: malformed, or a well-formed wasm module
declaring a list of `(namespace, name)` imports. -/
inductive Image where
  | malformed : Image
  | wellFormed (imports : List (String × String)) : Image
deriving DecidableEq, Repr

/-- Modelled from wasmtime: a compiled `Module` — compilation decodes the
list of imports but does not resolve them against any linker. -/
structure WasmModule where
  imports : List (String × String)
deriving DecidableEq, Repr

/-- Modelled from wasmtime: `Module::new(&engine, bytes)` validates and
compiles the bytes, failing on a malformed image; import resolution happens
only later, at instantiation. -/
def Module.new (_engine : Engine) (bytes : Image) : Option WasmModule :=
  match bytes with
  | .malformed => none
  | .wellFormed imports => some ⟨imports⟩

/-- `WasmEndpointBuilder`: engine, linker, raw (not yet compiled) module
bytes, and the shared user state. -/
structure WasmEndpointBuilder (σ : Type) where
  engine : Engine
  linker : Linker
  module : Image
  user_state : σ
deriving DecidableEq, Repr

/-- `WasmEndpointBuilder::new(bytes)`: creates the engine and an empty linker,
stores the raw bytes and the unit user state; compiles nothing. -/
def WasmEndpointBuilder.new (bytes : Image) : WasmEndpointBuilder Unit :=
  { engine := Engine.new, linker := Linker.new, module := bytes, user_state := () }

/-- `WasmEndpointBuilder::with_state(user_state)`: keeps engine and module
bytes via `..self`, replaces the user state, and replaces the linker with
`Linker::new(&self.engine)` — an empty registry. -/
def WasmEndpointBuilder.with_state {σ σ' : Type} (b : WasmEndpointBuilder σ)
    (user : σ') : WasmEndpointBuilder σ' :=
  { engine := b.engine, linker := Linker.new, module := b.module, user_state := user }

/-- `WasmEndpointBuilder::udf(module, name, func)`:
`self.linker.func_wrap(module, name, func).unwrap()` — on a duplicate
`(namespace, name)` the `unwrap` aborts (`none`); otherwise the updated
builder is returned. -/
def WasmEndpointBuilder.udf {σ : Type} (b : WasmEndpointBuilder σ) (ns name : String)
    (f : Nat) : Option (WasmEndpointBuilder σ) :=
  match b.linker.func_wrap ns name f with
  | some l => some { b with linker := l }
  | none => none

/-- Modelled from the spec: the fixed built-in binding set installed by
`funcs::add_to_linker` (host functions for reading the request and sending
envelope/body/tunnel data), as concrete stand-in `(namespace, name, token)`
triples under the crate's host namespace. -/
def builtinBindings : List (String × String × Nat) :=
  [("poem", "read_request", 100), ("poem", "send_response", 101),
   ("poem", "read_request_body", 102), ("poem", "send_response_body", 103),
   ("poem", "upgraded", 104)]

/-- Fold a binding list into a linker with `func_wrap`, failing on the first
duplicate definition. -/
def addBindings (l : Linker) : List (String × String × Nat) → Option Linker
  | [] => some l
  | d :: rest =>
    match l.func_wrap d.1 d.2.1 d.2.2 with
    | some l' => addBindings l' rest
    | none => none

/-- Modelled from the spec: `funcs::add_to_linker(&mut self.linker)` installs
the fixed built-in binding set, failing on a duplicate definition. -/
def funcs.add_to_linker (l : Linker) : Option Linker :=
  addBindings l builtinBindings

/-- Modelled from the spec: the capability imports (WASI syscall bindings)
installed by `wasmtime_wasi::add_to_linker`, as concrete stand-in triples. -/
def wasiBindings : List (String × String × Nat) :=
  [("wasi_snapshot_preview1", "fd_write", 200),
   ("wasi_snapshot_preview1", "environ_get", 201),
   ("wasi_snapshot_preview1", "random_get", 202)]

/-- Modelled from the spec: `wasmtime_wasi::add_to_linker(&mut self.linker, ...)`
installs the capability imports, failing on a duplicate definition. -/
def wasmtime_wasi.add_to_linker (l : Linker) : Option Linker :=
  addBindings l wasiBindings

/-- The immutable `WasmEndpoint` returned by `build()`. -/
structure WasmEndpoint (σ : Type) where
  engine : Engine
  module : WasmModule
  linker : Linker
  user_state : σ
deriving DecidableEq, Repr

/-- Outcome of `build()`: an endpoint, a returned error (`CompileError` from
`Module::new`, `LinkError` from the `?` on `wasmtime_wasi::add_to_linker`),
or the abort of the `unwrap` on `funcs::add_to_linker`. -/
inductive BuildOutcome (σ : Type) where
  | ok (e : WasmEndpoint σ) : BuildOutcome σ
  | compileError : BuildOutcome σ
  | linkError : BuildOutcome σ
  | panicked : BuildOutcome σ
deriving DecidableEq, Repr

/-- `WasmEndpointBuilder::build()` (lines 56–67): compile the stored bytes
(`?` on failure), install the built-in bindings (`unwrap` on failure), install
the capability imports (`?` on failure), and return the immutable endpoint. -/
def WasmEndpointBuilder.build {σ : Type} (b : WasmEndpointBuilder σ) : BuildOutcome σ :=
  match Module.new b.engine b.module with
  | none => .compileError
  | some m =>
    match funcs.add_to_linker b.linker with
    | none => .panicked
    | some l1 =>
      match wasmtime_wasi.add_to_linker l1 with
      | none => .linkError
      | some l2 => .ok ⟨b.engine, m, l2, b.user_state⟩

/-- The per-request setup block of `WasmEndpoint::call` (taking the upgrade
intent, allocating the duplex pipe and tunnel channel when intent is present,
building the state passed to the sandbox, keeping the stub for later relay). -/
structure Setup (σ : Type) where
  state : WasmEndpointState σ
  stub : Option Unit
  onUpgrade : Option OnUpgrade
deriving DecidableEq, Repr

/-- Lines 86–108 of `endpoint.rs`: `take_upgrade` first, then
`(upgraded, upgraded_stub)` are both allocated iff `on_upgrade.is_some()`,
then `WasmEndpointState::new` receives the (already detached) request. -/
def callSetup {σ : Type} (user : σ) (req : Request) : Setup σ :=
  let taken := req.take_upgrade
  let on_upgrade := taken.1
  let pair : Option Unit × Option Unit :=
    if on_upgrade.isSome then (some (), some ()) else (none, none)
  { state := { request := taken.2, upgraded := pair.1, user_state := user }
    stub := pair.2
    onUpgrade := on_upgrade }

/-- The nested relay task (lines 175–181): receive tunnel-channel messages in
order and write each onto the transport's write half, breaking on write
failure; the write that fails transmits nothing.  Returns the sequence of
buffers actually written. -/
def relayTunnel : List Bytes → Option Nat → List Bytes
  | [], _ => []
  | data :: rest, none => data :: relayTunnel rest none
  | _ :: _, some 0 => []
  | data :: rest, some (k + 1) => data :: relayTunnel rest (some k)

/-- `tokio::io::copy(&mut reader, &mut upgraded_writer)` (line 183): bytes
from the transport's read half are copied into the sandbox's virtual
connection in arrival order, until end of stream. -/
def copyToSandbox : List Nat → List Nat
  | [] => []
  | b :: rest => b :: copyToSandbox rest

/-- Outcome of the spawned upgrade task: tunneling abandoned (negotiation
failed), or the buffers written to the transport and the bytes delivered to
the sandbox's virtual connection. -/
inductive TunnelOutcome where
  | abandoned : TunnelOutcome
  | tunneled (written : List Bytes) (toSandbox : List Nat) : TunnelOutcome
deriving DecidableEq, Repr

/-- The upgrade task spawned at lines 172–186: `if let Ok(upgraded) = on_upgrade.await`
split the transport and relay both directions; on negotiation failure do
nothing (no error reaches the caller). -/
def upgradeTask (on_upgrade : OnUpgrade) (tunnelMsgs : List Bytes) : TunnelOutcome :=
  match on_upgrade with
  | .failed => .abandoned
  | .negotiated t => .tunneled (relayTunnel tunnelMsgs t.failAfter) (copyToSandbox t.readBytes)

/-- The body-kind dispatch (lines 146–164): `EMPTY` sets an empty body;
`BYTES` awaits one body-channel message and uses it verbatim, falling back to
an empty body if the channel closed first; `STREAM` exposes the body channel
as the body's chunk stream; any other tag hits `unreachable!` (`none`). -/
def assembleResponse (env : Envelope) (bodyMsgs : List Bytes) : Option Response :=
  if env.bodyType = RESPONSE_BODY_EMPTY then
    some ⟨env.status, env.headers, .empty⟩
  else if env.bodyType = RESPONSE_BODY_BYTES then
    match bodyMsgs with
    | [] => some ⟨env.status, env.headers, .empty⟩
    | data :: _ => some ⟨env.status, env.headers, .bytes data⟩
  else if env.bodyType = RESPONSE_BODY_STREAM then
    some ⟨env.status, env.headers, .stream bodyMsgs⟩
  else
    none

/-- Result of one `WasmEndpoint::call`: a response (with the spawned upgrade
task's outcome when one was spawned), the `IncompleteResponse` error, or the
`unreachable!` panic. -/
inductive CallResult where
  | response (resp : Response) (tunnel : Option TunnelOutcome) : CallResult
  | incompleteResponse : CallResult
  | panicked : CallResult
deriving DecidableEq, Repr

/-- `WasmEndpoint::call` (lines 84–189), with the sandbox's channel traffic as
inputs: `envMsgs` are the messages sent on the envelope channel before it
closes (empty when instantiation, entry-point lookup or execution failed
before sending one), `bodyMsgs` the body-channel messages, `tunnelMsgs` the
tunnel-channel messages.  `recv` takes the first message of a list; a closed
channel is the empty list.  The early `return Err(IncompleteResponse)` at
line 167 precedes the upgrade block, so no tunnel task runs on that path. -/
def WasmEndpoint.call {σ : Type} (user : σ) (req : Request) (envMsgs : List Envelope)
    (bodyMsgs : List Bytes) (tunnelMsgs : List Bytes) : CallResult :=
  let setup := callSetup user req
  match envMsgs with
  | [] => .incompleteResponse
  | env :: _ =>
    match assembleResponse env bodyMsgs with
    | none => .panicked
    | some resp =>
      match setup.onUpgrade, setup.stub with
      | some onUp, some _ => .response resp (some (upgradeTask onUp tunnelMsgs))
      | _, _ => .response resp none

/-- Whether a `BuildOutcome` is a successfully built endpoint. -/
def BuildOutcome.isOk {σ : Type} : BuildOutcome σ → Bool
  | .ok _ => true
  | _ => false

/-- A concrete builder whose caller registered a binding that collides with
the built-in `("poem", "read_request")` of `builtinBindings`, over a
well-formed image with no imports. -/
def dupBuiltinBuilder : WasmEndpointBuilder Unit :=
  { engine := Engine.new, linker := ⟨[("poem", "read_request", 7)]⟩,
    module := Image.wellFormed [], user_state := () }

/-! Helper lemmas. -/

lemma call_cons {σ : Type} (user : σ) (req : Request) (env : Envelope)
    (rest : List Envelope) (bodyMsgs tunnelMsgs : List Bytes) :
    WasmEndpoint.call user req (env :: rest) bodyMsgs tunnelMsgs =
      match assembleResponse env bodyMsgs with
      | none => .panicked
      | some resp => .response resp (req.onUpgrade.map fun u => upgradeTask u tunnelMsgs) := by
  cases hu : req.onUpgrade <;> cases ha : assembleResponse env bodyMsgs <;>
    simp [WasmEndpoint.call, callSetup, Request.take_upgrade, hu, ha]

lemma relayTunnel_none (msgs : List Bytes) : relayTunnel msgs none = msgs := by
  induction msgs with
  | nil => rfl
  | cons d rest ih => simp [relayTunnel, ih]

lemma relayTunnel_some (msgs : List Bytes) (k : Nat) :
    relayTunnel msgs (some k) = msgs.take k := by
  induction msgs generalizing k with
  | nil => simp [relayTunnel]
  | cons d rest ih =>
    cases k with
    | zero => simp [relayTunnel]
    | succ k => simp [relayTunnel, ih]

lemma copyToSandbox_id (bs : List Nat) : copyToSandbox bs = bs := by
  induction bs with
  | nil => rfl
  | cons b rest ih => simp [copyToSandbox, ih]

/-! Claim theorems. -/

/-- C1: if the envelope channel closes without any envelope message having
been sent (instantiation, entry-point lookup or execution failed before
sending one), `WasmEndpoint::call` returns the `IncompleteResponse` error and
no (partial) response is returned to the caller. -/
theorem envelope_closed_incomplete_response {σ : Type} (user : σ) (req : Request)
    (bodyMsgs tunnelMsgs : List Bytes) :
    WasmEndpoint.call user req [] bodyMsgs tunnelMsgs = .incompleteResponse := by
  cases hu : req.onUpgrade <;> simp [WasmEndpoint.call, callSetup, Request.take_upgrade, hu]

/-- C5: for a request whose module sends exactly one envelope with body-kind
EMPTY, the response has an empty body and exactly the envelope's status and
headers. -/
theorem empty_body_envelope_response {σ : Type} (user : σ) (req : Request)
    (s : Nat) (hs : Headers) (bodyMsgs tunnelMsgs : List Bytes) :
    ∃ t, WasmEndpoint.call user req [⟨s, hs, RESPONSE_BODY_EMPTY⟩] bodyMsgs tunnelMsgs
        = .response ⟨s, hs, .empty⟩ t := by
  refine ⟨req.onUpgrade.map fun u => upgradeTask u tunnelMsgs, ?_⟩
  rw [call_cons]
  simp [assembleResponse, RESPONSE_BODY_EMPTY]

/-- C3: for body-kind BYTES with exactly one body-channel message `B`, the
response body is `B` verbatim; if the body channel closes before any message
arrives, the response body is empty. -/
theorem bytes_body_verbatim_or_empty {σ : Type} (user : σ) (req : Request)
    (s : Nat) (hs : Headers) (B : Bytes) (tunnelMsgs : List Bytes) :
    (∃ t, WasmEndpoint.call user req [⟨s, hs, RESPONSE_BODY_BYTES⟩] [B] tunnelMsgs
        = .response ⟨s, hs, .bytes B⟩ t ∧ Response.bodyBytes ⟨s, hs, .bytes B⟩ = B) ∧
    (∃ t, WasmEndpoint.call user req [⟨s, hs, RESPONSE_BODY_BYTES⟩] [] tunnelMsgs
        = .response ⟨s, hs, .empty⟩ t ∧ Response.bodyBytes ⟨s, hs, .empty⟩ = []) := by
  constructor <;>
    refine ⟨req.onUpgrade.map fun u => upgradeTask u tunnelMsgs, ?_, rfl⟩ <;>
    · rw [call_cons]
      simp [assembleResponse, RESPONSE_BODY_EMPTY, RESPONSE_BODY_BYTES]

/-- C4: for body-kind STREAM with ordered chunks `c1..cn` followed by channel
closure, the response body is exactly that chunk sequence, and a reader of
the body observes exactly the concatenation `c1‖...‖cn`. -/
theorem stream_body_concatenation {σ : Type} (user : σ) (req : Request)
    (s : Nat) (hs : Headers) (chunks : List Bytes) (tunnelMsgs : List Bytes) :
    ∃ t, WasmEndpoint.call user req [⟨s, hs, RESPONSE_BODY_STREAM⟩] chunks tunnelMsgs
        = .response ⟨s, hs, .stream chunks⟩ t ∧
      Response.bodyBytes ⟨s, hs, .stream chunks⟩ = chunks.flatten := by
  refine ⟨req.onUpgrade.map fun u => upgradeTask u tunnelMsgs, ?_, rfl⟩
  rw [call_cons]
  cases chunks <;>
    simp [assembleResponse, RESPONSE_BODY_EMPTY, RESPONSE_BODY_BYTES, RESPONSE_BODY_STREAM]

/-- C10: when the envelope's body-kind tag lies in the closed set
{EMPTY, BYTES, STREAM}, the fall-through branch of the dispatch is not taken
and the call does not panic; for any tag outside that set, the dispatch
reaches the unconditional `unreachable!` panic instead of producing a
response or a recoverable error. -/
theorem body_kind_dispatch_closed {σ : Type} (user : σ) (req : Request)
    (env : Envelope) (rest : List Envelope) (bodyMsgs tunnelMsgs : List Bytes) :
    (env.bodyType = RESPONSE_BODY_EMPTY ∨ env.bodyType = RESPONSE_BODY_BYTES ∨
        env.bodyType = RESPONSE_BODY_STREAM →
      (assembleResponse env bodyMsgs).isSome = true ∧
        WasmEndpoint.call user req (env :: rest) bodyMsgs tunnelMsgs ≠ .panicked) ∧
    (¬(env.bodyType = RESPONSE_BODY_EMPTY ∨ env.bodyType = RESPONSE_BODY_BYTES ∨
        env.bodyType = RESPONSE_BODY_STREAM) →
      assembleResponse env bodyMsgs = none ∧
        WasmEndpoint.call user req (env :: rest) bodyMsgs tunnelMsgs = .panicked) := by
  rw [call_cons]
  constructor
  · rintro (h | h | h) <;>
      · cases bodyMsgs <;>
          simp [assembleResponse, h, RESPONSE_BODY_EMPTY, RESPONSE_BODY_BYTES,
            RESPONSE_BODY_STREAM]
  · intro h
    push_neg at h
    obtain ⟨h1, h2, h3⟩ := h
    simp [assembleResponse, h1, h2, h3]

/-- C10 witness: the tag 7 is outside the closed set and makes the dispatch
panic; the tag EMPTY is inside it and yields a response. -/
theorem body_kind_dispatch_closed_witness :
    WasmEndpoint.call () ⟨none⟩ [⟨200, [], 7⟩] [] [] = .panicked ∧
      WasmEndpoint.call () ⟨none⟩ [⟨200, [], RESPONSE_BODY_EMPTY⟩] [] [] ≠ .panicked :=
  ⟨(body_kind_dispatch_closed () ⟨none⟩ ⟨200, [], 7⟩ [] [] []).2 (by decide) |>.2,
   (body_kind_dispatch_closed () ⟨none⟩ ⟨200, [], RESPONSE_BODY_EMPTY⟩ [] [] []).1
      (Or.inl rfl) |>.2⟩

/-- C2: for every builder, once `udf` has registered a `(namespace, name)`
pair, a second `udf` call with the identical pair fails deterministically at
registration time (the `unwrap` on `func_wrap` aborts); in particular it
never returns a builder, so it never silently replaces the first binding with
the one registered last. -/
theorem duplicate_udf_registration_aborts {σ : Type} (b : WasmEndpointBuilder σ)
    (ns name : String) (f g : Nat) (b' : WasmEndpointBuilder σ)
    (h : b.udf ns name f = some b') :
    b'.udf ns name g = none := by
  unfold WasmEndpointBuilder.udf Linker.func_wrap at h ⊢
  by_cases hd : b.linker.definesName ns name = true
  · simp [hd] at h
  · simp [hd] at h
    rw [← h]
    simp [Linker.definesName, List.any_append]

/-- C2 witness: registering `("host", "f")` twice on a fresh builder aborts
at the second registration. -/
theorem duplicate_udf_registration_aborts_witness :
    ({ engine := Engine.new, linker := ⟨[("host", "f", 1)]⟩, module := Image.malformed,
        user_state := () } : WasmEndpointBuilder Unit).udf "host" "f" 2 = none :=
  duplicate_udf_registration_aborts (WasmEndpointBuilder.new Image.malformed)
    "host" "f" 1 2 _ (by decide)

/-- C6: `with_state(userState)` replaces the shared user state with
`userState` and resets the binding registry to the empty linker (discarding
every previously registered binding), while leaving the stored image bytes
and the engine unchanged. -/
theorem with_state_resets_registry {σ σ' : Type} (b : WasmEndpointBuilder σ) (user : σ') :
    (b.with_state user).user_state = user ∧
      (b.with_state user).linker = Linker.new ∧ Linker.new.defs = [] ∧
      (b.with_state user).module = b.module ∧
      (b.with_state user).engine = b.engine :=
  ⟨rfl, rfl, rfl, rfl, rfl⟩

/-- C8: `call` detaches the connection-upgrade intent from the request before
the request is handed to the sandbox's per-request state (the state's request
carries no upgrade intent), and the virtual duplex pipe half plus the
sandbox-to-client tunnel stub are allocated if and only if upgrade intent was
present on the incoming request. -/
theorem upgrade_intent_detached_and_allocation {σ : Type} (user : σ) (req : Request) :
    (callSetup user req).state.request.onUpgrade = none ∧
      ((callSetup user req).state.upgraded.isSome ↔ req.onUpgrade.isSome) ∧
      ((callSetup user req).stub.isSome ↔ req.onUpgrade.isSome) ∧
      (callSetup user req).onUpgrade = req.onUpgrade := by
  cases hu : req.onUpgrade <;>
    simp [callSetup, Request.take_upgrade, hu]

/-- C9: with a negotiated upgrade, the relay writes the tunnel-channel
messages onto the transport's write half in the order they were sent —
all of them when no write fails, and exactly the first `k` when the
`(k+1)`-th write fails — while the transport's read-half bytes are copied to
the sandbox's virtual connection in arrival order; when negotiation fails,
tunneling is abandoned and the caller still gets the already-assembled
response with no error. -/
theorem tunnel_relay_order_and_abandon (t : Transport) (msgs : List Bytes)
    {σ : Type} (user : σ) (env : Envelope) (rest : List Envelope)
    (bodyMsgs : List Bytes) (resp : Response)
    (hresp : assembleResponse env bodyMsgs = some resp) :
    (t.failAfter = none →
      upgradeTask (.negotiated t) msgs = .tunneled msgs t.readBytes) ∧
    (∀ k, t.failAfter = some k →
      upgradeTask (.negotiated t) msgs = .tunneled (msgs.take k) t.readBytes) ∧
    upgradeTask .failed msgs = .abandoned ∧
    WasmEndpoint.call user ⟨some .failed⟩ (env :: rest) bodyMsgs msgs
        = .response resp (some .abandoned) := by
  refine ⟨?_, ?_, rfl, ?_⟩
  · intro hf
    simp [upgradeTask, hf, relayTunnel_none, copyToSandbox_id]
  · intro k hf
    simp [upgradeTask, hf, relayTunnel_some, copyToSandbox_id]
  · rw [call_cons, hresp]
    rfl

/-- C9 witness: a transport whose first write fails after two successes, three
tunnel messages, and an EMPTY-envelope request whose negotiation failed. -/
theorem tunnel_relay_order_and_abandon_witness :
    upgradeTask (.negotiated ⟨[9, 8], some 2⟩) [[1], [2], [3]]
        = .tunneled [[1], [2]] [9, 8] ∧
      WasmEndpoint.call () ⟨some .failed⟩ [⟨200, [], RESPONSE_BODY_EMPTY⟩] [] [[1]]
        = .response ⟨200, [], .empty⟩ (some .abandoned) :=
  ⟨(tunnel_relay_order_and_abandon ⟨[9, 8], some 2⟩ [[1], [2], [3]] ()
      ⟨200, [], RESPONSE_BODY_EMPTY⟩ [] [] ⟨200, [], .empty⟩ (by decide)).2.1 2 rfl,
   (tunnel_relay_order_and_abandon ⟨[9, 8], some 2⟩ [[1]] ()
      ⟨200, [], RESPONSE_BODY_EMPTY⟩ [] [] ⟨200, [], .empty⟩ (by decide)).2.2.2⟩

/-- C7 counterexample: (a) a well-formed image with an unresolved import
`("nosuch", "import_fn")` builds successfully — `build()` never inspects the
module's imports, so unresolved symbols do not produce `LinkError` at build
time; (b) a caller binding duplicating the built-in `("poem", "read_request")`
makes `build()` abort in the `unwrap` on `funcs::add_to_linker` instead of
returning `LinkError`. -/
theorem build_claim_counterexample :
    ((WasmEndpointBuilder.new (Image.wellFormed [("nosuch", "import_fn")])).build).isOk
        = true ∧
      dupBuiltinBuilder.build = .panicked := by
  constructor <;> decide

/-- C7 amended: `build()` fails with `CompileError` on malformed image bytes;
a duplicate between a caller binding and the built-in binding set makes
`build()` abort (panic) rather than return `LinkError`; a failure installing
the capability imports surfaces as `LinkError`; unresolved symbols are not
detected at `build()` (a fresh builder builds successfully whatever the
image's imports are); on success an immutable endpoint carrying the compiled
module, the final linker and the user state is returned; and `new(imageBytes)`
performs no compilation (it stores the raw bytes with an empty registry and
never fails, even on malformed bytes), `udf` and `with_state` leaving the
stored bytes untouched. -/
theorem build_error_paths {σ σ' : Type} (b : WasmEndpointBuilder σ)
    (bytes : Image) (imports : List (String × String)) (user : σ')
    (ns name : String) (f : Nat) :
    (b.module = Image.malformed → b.build = .compileError) ∧
    (b.module ≠ Image.malformed → funcs.add_to_linker b.linker = none →
      b.build = .panicked) ∧
    (∀ l1, b.module ≠ Image.malformed → funcs.add_to_linker b.linker = some l1 →
      wasmtime_wasi.add_to_linker l1 = none → b.build = .linkError) ∧
    (∀ m l1 l2, Module.new b.engine b.module = some m →
      funcs.add_to_linker b.linker = some l1 → wasmtime_wasi.add_to_linker l1 = some l2 →
      b.build = .ok ⟨b.engine, m, l2, b.user_state⟩) ∧
    ((WasmEndpointBuilder.new (Image.wellFormed imports)).build).isOk = true ∧
    (WasmEndpointBuilder.new bytes).module = bytes ∧
    (WasmEndpointBuilder.new bytes).linker = Linker.new ∧
    (b.with_state user).module = b.module ∧
    (∀ b', b.udf ns name f = some b' → b'.module = b.module) := by
  refine ⟨?_, ?_, ?_, ?_, ?_, rfl, rfl, rfl, ?_⟩
  · intro hm
    simp [WasmEndpointBuilder.build, hm, Module.new]
  · intro hm hf
    cases hb : b.module with
    | malformed => exact absurd hb hm
    | wellFormed imps => simp [WasmEndpointBuilder.build, hb, Module.new, hf]
  · intro l1 hm hf hw
    cases hb : b.module with
    | malformed => exact absurd hb hm
    | wellFormed imps => simp [WasmEndpointBuilder.build, hb, Module.new, hf, hw]
  · intro m l1 l2 hm hf hw
    simp [WasmEndpointBuilder.build, hm, hf, hw]
  · rfl
  · intro b' h
    unfold WasmEndpointBuilder.udf at h
    cases hfw : b.linker.func_wrap ns name f with
    | none => simp [hfw] at h
    | some l =>
      simp [hfw] at h
      rw [← h]

/-- C7 amended witness: concrete builders exercising the compile-error path,
the panic path, the successful path, and the raw-byte storage of `new`. -/
theorem build_error_paths_witness :
    (WasmEndpointBuilder.new Image.malformed).build = .compileError ∧
      dupBuiltinBuilder.build = .panicked ∧
      ((WasmEndpointBuilder.new (Image.wellFormed [("env", "host_call")])).build).isOk
        = true ∧
      (WasmEndpointBuilder.new Image.malformed).module = Image.malformed :=
  ⟨(build_error_paths (WasmEndpointBuilder.new Image.malformed) Image.malformed []
      () "x" "y" 0).1 rfl,
   (build_error_paths dupBuiltinBuilder
      Image.malformed [] () "x" "y" 0).2.1 (by decide) (by decide),
   (build_error_paths (WasmEndpointBuilder.new Image.malformed) Image.malformed
      [("env", "host_call")] () "x" "y" 0).2.2.2.2.1,
   (build_error_paths (WasmEndpointBuilder.new Image.malformed) Image.malformed []
      () "x" "y" 0).2.2.2.2.2.1⟩

end PoemWasmHandler
